import Mathlib

/-!
Shallow embedding of the automatic build-options selector of html2win
(`src/html2exe_pro_premium.py`): `AutoOptionsSelector.analyze_source`,
`AutoOptionsSelector.get_optimal_pyinstaller_options` and
`BuildEngine._build_pyinstaller_command`.

Filesystem state observed by the Python code (`os.path.exists`,
`os.listdir`, `os.path.isfile`, `os.path.getsize`, reading a file) is
embedded as an explicit snapshot value (`FS`).  An uncaught Python
exception is embedded as `Except.error`.  Python dicts whose key set
varies (the `recommendations` dict gains an `offline_mode` key only on
some branches) are embedded as a record with an `Option` field, `none`
meaning "key absent"; call sites of the real code read the key with
`analysis.get("offline_mode", False)`, embedded as `offlineModeGet`.
-/

set_option linter.unusedVariables false

namespace Html2Win

/-- Boolean test that `pat` is a prefix of `s`, on explicit character
lists (used to embed Python's `str.startswith`-style comparisons and to
build `endswith` / substring checks). -/
def charsHasPre : List Char → List Char → Bool
  | [], _ => true
  | _ :: _, [] => false
  | a :: as, b :: bs => a == b && charsHasPre as bs

/-- Boolean substring test: some tail of `s` starts with `pat`
(embeds Python's `pat in s`). -/
def charsHasSub (pat : List Char) : List Char → Bool
  | [] => charsHasPre pat []
  | a :: rest => charsHasPre pat (a :: rest) || charsHasSub pat rest

/-- Embeds Python `s.endswith(suffix)`: the reversed suffix is a prefix
of the reversed string. -/
def strEndsWith (s suffix : String) : Bool :=
  charsHasPre suffix.data.reverse s.data.reverse

/-- One entry of `os.listdir` for the analyzed folder, with the
metadata the Python code can query about it: `os.path.isfile`,
`os.path.getsize`, and the text `open(..., errors='ignore').read()`
would yield. -/
structure DirEntry where
  name : String
  isFile : Bool
  size : Nat
  content : String
deriving Repr, DecidableEq

/-- Snapshot of what the OS answers about the source path:
the path does not exist (`os.path.exists` is false), or it exists but
`os.listdir` raises (e.g. `PermissionError`), or listing succeeds with
the given entries. -/
inductive FS where
  | absent
  | denied
  | dir (entries : List DirEntry)
deriving Repr, DecidableEq

/-- The `recommendations` dict built by `analyze_source`.  The
`offline_mode` key is absent from the initial dict and only added by
some branches, hence `Option Bool` with `none` for "absent". -/
structure Recommendations where
  onefile : Bool
  console : Bool
  debug : Bool
  upx_compress : Bool
  strip_debug : Bool
  optimization_level : String
  offline_mode : Option Bool
deriving Repr, DecidableEq

/-- The initial dict of `analyze_source` (no `offline_mode` key). -/
def defaultRecommendations : Recommendations :=
  { onefile := true
    console := false
    debug := false
    upx_compress := false
    strip_debug := true
    optimization_level := "balanced"
    offline_mode := none }

/-- Embeds `analysis.get("offline_mode", False)`, the way the
surrounding code reads the possibly-absent key. -/
def offlineModeGet (r : Recommendations) : Bool :=
  r.offline_mode.getD false

/-- Embeds `f.endswith(('.map', '.ts', '.scss', '.less'))`. -/
def isDevArtifact (f : String) : Bool :=
  strEndsWith f ".map" || strEndsWith f ".ts" ||
    strEndsWith f ".scss" || strEndsWith f ".less"

/-- Embeds `'http' in open(path, 'r', errors='ignore').read()[:1000]`
for one entry. -/
def fileHeadHasHttp (e : DirEntry) : Bool :=
  charsHasSub "http".data (e.content.data.take 1000)

/-- Embeds
`any(f.endswith('.js') and 'http' in open(...).read()[:1000]
     for f in os.listdir(source_path) if f.endswith('.html'))`. -/
def hasExternalJs (entries : List DirEntry) : Bool :=
  (entries.filter (fun e => strEndsWith e.name ".html")).any
    (fun e => strEndsWith e.name ".js" && fileHeadHasHttp e)

/-- The folder branch of `analyze_source` after `os.listdir`
succeeded: size heuristic, dev-artifact heuristic, external-JS
heuristic, applied in source order by sequential update. -/
def analyzeFolder (entries : List DirEntry) : Recommendations :=
  let recommendations := defaultRecommendations
  let total_size : Nat :=
    ((entries.filter (fun e => e.isFile)).map (fun e => e.size)).sum
  let recommendations :=
    if total_size > 50 * 1024 * 1024 then
      { recommendations with onefile := false, optimization_level := "size" }
    else recommendations
  let dev_files := entries.filter (fun e => isDevArtifact e.name)
  let recommendations :=
    if dev_files.isEmpty then recommendations
    else { recommendations with strip_debug := true, optimization_level := "production" }
  if hasExternalJs entries then
    { recommendations with offline_mode := some true }
  else recommendations

/-- Embeds `AutoOptionsSelector.analyze_source(source_path,
source_type)` run against the filesystem snapshot `fs` for
`source_path`.  The Python body has no try/except: a `PermissionError`
from `os.listdir` propagates, embedded as `Except.error`. -/
def analyze_source (source_path source_type : String) (fs : FS) :
    Except String Recommendations :=
  let recommendations := defaultRecommendations
  if source_type = "folder" then
    match fs with
    | .absent => .ok recommendations
    | .denied => .error "PermissionError"
    | .dir entries => .ok (analyzeFolder entries)
  else if source_type = "url" then
    .ok { recommendations with
          onefile := true
          offline_mode := some true
          optimization_level := "portable" }
  else
    .ok recommendations

/-- The fields of `AppMetadata` the planner reads. -/
structure AppMetadata where
  name : String
deriving Repr, DecidableEq

/-- The fields of `BuildConfig` the planner reads. -/
structure BuildConfig where
  source_type : String
  source_path : String
  output_dir : String
  console : Bool
  icon_path : String
deriving Repr, DecidableEq

/-- The slice of `AppConfig` the planner reads. -/
structure AppConfig where
  metadata : AppMetadata
  build : BuildConfig
deriving Repr, DecidableEq

/-- Facts about the execution environment the planner queries:
`sys.platform == "win32"` and `os.path.exists(config.build.icon_path)`. -/
structure Platform where
  isWin32 : Bool
  iconPathExists : Bool
deriving Repr, DecidableEq

/-- Embeds `os.path.join(a, b)` for the common case of two relative
components: concatenation with the execution platform's separator. -/
def ospath_join (plat : Platform) (a b : String) : String :=
  a ++ (if plat.isWin32 then "\\" else "/") ++ b

/-- The `hidden_imports` list of `get_optimal_pyinstaller_options`. -/
def hiddenImports : List String :=
  ["flask", "webview", "threading", "json", "os", "sys", "time",
   "urllib.parse", "base64", "hashlib", "datetime", "tempfile"]

/-- The `--add-data` directive built for folder sources:
`f"--add-data={html_assets};html_assets"` on win32, `:` otherwise. -/
def addDataDirective (plat : Platform) (config : AppConfig) : String :=
  let html_assets :=
    ospath_join plat (ospath_join plat config.build.output_dir "build") "html_assets"
  if plat.isWin32 then "--add-data=" ++ html_assets ++ ";html_assets"
  else "--add-data=" ++ html_assets ++ ":html_assets"

/-- The option list `get_optimal_pyinstaller_options` builds once the
`analysis` dict is available, in source order.  `os.makedirs(...,
exist_ok=True)` for the output directories is modelled as succeeding
(its failure mode is outside the analyzed decision logic). -/
def plannedOptions (config : AppConfig) (plat : Platform)
    (analysis : Recommendations) : List String :=
  let dist_path := ospath_join plat config.build.output_dir "dist"
  let work_path :=
    ospath_join plat (ospath_join plat config.build.output_dir "build") "work"
  let options : List String :=
    ["--noconfirm", "--clean",
     "--name=" ++ config.metadata.name,
     "--distpath=" ++ dist_path,
     "--workpath=" ++ work_path]
  let options := options ++ (if analysis.onefile then ["--onefile"] else ["--onedir"])
  let options := options ++ (if config.build.console then [] else ["--windowed"])
  let options := options ++ (if analysis.strip_debug then ["--strip"] else [])
  let options := options ++ (if analysis.upx_compress then ["--upx-dir=upx"] else [])
  let options := options ++
    (if config.build.source_type = "folder" then [addDataDirective plat config] else [])
  let options := options ++ hiddenImports.map (fun imp => "--hidden-import=" ++ imp)
  options ++
    (if config.build.icon_path ≠ "" && plat.iconPathExists then
      ["--icon=" ++ config.build.icon_path]
    else [])

/-- Embeds `AutoOptionsSelector.get_optimal_pyinstaller_options`:
runs `analyze_source` (whose uncaught exception propagates) and then
assembles the option list. -/
def get_optimal_pyinstaller_options (config : AppConfig) (fs : FS)
    (plat : Platform) : Except String (List String) :=
  (analyze_source config.build.source_path config.build.source_type fs).map
    (plannedOptions config plat)

/-- Embeds `BuildEngine._build_pyinstaller_command`:
`[sys.executable, "-m", "PyInstaller"] + auto_options + [main_script_path]`. -/
def build_pyinstaller_command (config : AppConfig) (fs : FS) (plat : Platform)
    (python_exe main_script_path : String) : Except String (List String) :=
  (get_optimal_pyinstaller_options config fs plat).map
    (fun auto_options =>
      ([python_exe, "-m", "PyInstaller"] ++ auto_options) ++ [main_script_path])

/-- Directive classifier: starts with `--add-data=`. -/
def isAddDataDirective (s : String) : Bool :=
  charsHasPre "--add-data=".data s.data

/-- Directive classifier: is one of the two packaging-mode directives. -/
def isModeDirective (s : String) : Bool :=
  decide (s = "--onefile") || decide (s = "--onedir")

/-! ### Helper lemmas about the character-list predicates -/

theorem charsHasPre_self_append (q x : List Char) :
    charsHasPre q (q ++ x) = true := by
  induction q with
  | nil => rfl
  | cons a as ih => simp [charsHasPre, ih]

theorem charsHasPre_head (a : Char) (p s : List Char)
    (h : charsHasPre (a :: p) s = true) : s.head? = some a := by
  cases s with
  | nil => simp [charsHasPre] at h
  | cons b bs =>
    simp only [charsHasPre, Bool.and_eq_true, beq_iff_eq] at h
    simp [h.1]

theorem charsHasPre_take_of_append (p q x : List Char)
    (h : charsHasPre p (q ++ x) = true) :
    charsHasPre (p.take q.length) q = true := by
  induction p generalizing q with
  | nil => cases q <;> rfl
  | cons a as ih =>
    cases q with
    | nil => rfl
    | cons b bs =>
      simp only [List.cons_append, charsHasPre, Bool.and_eq_true] at h
      simp only [List.length_cons, List.take_succ_cons, charsHasPre,
        Bool.and_eq_true]
      exact ⟨h.1, ih bs h.2⟩

/-- If `p` does not survive the comparison against `q` alone, then `p`
is not a prefix of `q ++ x` for any continuation `x`. -/
theorem charsHasPre_append_eq_false (p q x : List Char)
    (h : charsHasPre (p.take q.length) q = false) :
    charsHasPre p (q ++ x) = false := by
  cases hc : charsHasPre p (q ++ x) with
  | false => rfl
  | true => rw [charsHasPre_take_of_append p q x hc] at h; simp at h

/-- A string extending the literal head `pre` is never equal to a
string `c` that does not start with `pre`. -/
theorem strAppend_ne_of_not_pre (pre x c : String)
    (h : charsHasPre pre.data c.data = false) : pre ++ x ≠ c := by
  intro he
  have h1 : charsHasPre pre.data (pre ++ x).data = true := by
    rw [String.data_append]; exact charsHasPre_self_append _ _
  rw [he, h] at h1
  cases h1

/-- No file name can satisfy both `.endswith('.html')` and
`.endswith('.js')`: the external-dependency generator's conjunction is
unsatisfiable. -/
theorem strEndsWith_html_not_js (s : String)
    (h : strEndsWith s ".html" = true) : strEndsWith s ".js" = false := by
  cases hjs : strEndsWith s ".js" with
  | false => rfl
  | true =>
    unfold strEndsWith at h hjs
    have hl : ".html".data.reverse = 'l' :: "mth.".data := by decide
    have hs : ".js".data.reverse = 's' :: "j.".data := by decide
    rw [hl] at h
    rw [hs] at hjs
    have h1 := charsHasPre_head _ _ _ h
    have h2 := charsHasPre_head _ _ _ hjs
    rw [h1] at h2
    cases h2

/-- The `has_external_js` generator is vacuously false for every
folder: it iterates names ending in `.html` and additionally requires
the same name to end in `.js`. -/
theorem hasExternalJs_eq_false (entries : List DirEntry) :
    hasExternalJs entries = false := by
  unfold hasExternalJs
  rw [List.any_eq_false]
  intro e he
  rw [List.mem_filter] at he
  simp only [Bool.and_eq_true, not_and, Bool.not_eq_true]
  intro hjs
  rw [strEndsWith_html_not_js e.name he.2] at hjs
  cases hjs

/-! ### Field-level facts about the analyzer -/

theorem analyzeFolder_offline_mode (entries : List DirEntry) :
    (analyzeFolder entries).offline_mode = none := by
  simp only [analyzeFolder, hasExternalJs_eq_false, Bool.false_eq_true,
    if_false]
  split <;> split <;> rfl

theorem analyzeFolder_upx_compress (entries : List DirEntry) :
    (analyzeFolder entries).upx_compress = false := by
  simp only [analyzeFolder]
  split <;> split <;> split <;> rfl

theorem analyze_source_ok_upx_compress (p st : String) (fs : FS)
    (a : Recommendations) (h : analyze_source p st fs = .ok a) :
    a.upx_compress = false := by
  unfold analyze_source at h
  split at h
  · cases fs with
    | absent => cases h; rfl
    | denied => cases h
    | dir entries => cases h; exact analyzeFolder_upx_compress entries
  · split at h
    · cases h; rfl
    · cases h; rfl

/-- Inversion for the planner pipeline: a successful result is the
planned option list of a successful analysis. -/
theorem get_optimal_ok_iff (config : AppConfig) (fs : FS) (plat : Platform)
    (opts : List String) :
    get_optimal_pyinstaller_options config fs plat = .ok opts ↔
      ∃ a, analyze_source config.build.source_path config.build.source_type fs
            = .ok a ∧ opts = plannedOptions config plat a := by
  unfold get_optimal_pyinstaller_options
  cases analyze_source config.build.source_path config.build.source_type fs with
  | error e => simp [Except.map]
  | ok a =>
    simp only [Except.map, Except.ok.injEq]
    constructor
    · intro h; exact ⟨a, rfl, h.symm⟩
    · rintro ⟨b, hb, hopts⟩
      cases hb
      exact hopts.symm

/-- Fields forced by a nonempty dev-artifact filter, whatever the
folder size. -/
theorem analyzeFolder_dev_fields (entries : List DirEntry)
    (hne : (entries.filter (fun e => isDevArtifact e.name)).isEmpty = false) :
    (analyzeFolder entries).optimization_level = "production" ∧
      (analyzeFolder entries).strip_debug = true := by
  simp only [analyzeFolder, hasExternalJs_eq_false, Bool.false_eq_true,
    if_false, hne]
  exact ⟨trivial, trivial⟩

/-- Fields forced by the size heuristic when no dev artifact is
present. -/
theorem analyzeFolder_large_fields (entries : List DirEntry)
    (hsize : ((entries.filter (fun e => e.isFile)).map (fun e => e.size)).sum
        > 50 * 1024 * 1024)
    (hdev : entries.filter (fun e => isDevArtifact e.name) = []) :
    (analyzeFolder entries).onefile = false ∧
      (analyzeFolder entries).optimization_level = "size" := by
  simp only [analyzeFolder, hasExternalJs_eq_false, Bool.false_eq_true,
    if_false, hdev, List.isEmpty_nil, if_true, if_pos hsize]
  exact ⟨trivial, trivial⟩

/-- The dict returned for every URL source. -/
def urlRecommendations : Recommendations :=
  { defaultRecommendations with
    onefile := true
    offline_mode := some true
    optimization_level := "portable" }

/-! ### Claims C1-C6 (SourceAnalyzer) -/

/-- Failing input for the external-dependency heuristic: a folder with
a top-level `index.html` and a sibling `app.js` whose first 1000 bytes
contain `"http"`. -/
def c1IndexHtml : DirEntry :=
  ⟨"index.html", true, 120, "<html><script src=app.js></script></html>"⟩

/-- The sibling script of the C1 scenario, referencing a CDN. -/
def c1AppJs : DirEntry :=
  ⟨"app.js", true, 60, "fetch of http://cdn.example.com/lib.js"⟩

/-- C1: the spec requires `offlineMode=true` for a folder whose
`index.html` has a sibling `.js` file whose first 1000 bytes contain
`"http"`.  The code never sets the `offline_mode` key for any folder
source: the generator filters `os.listdir` down to names ending in
`.html` and then additionally requires the same name to end in `.js`,
an unsatisfiable conjunction, so `has_external_js` is always false and
the returned dict equals the initial defaults (callers then read
`analysis.get("offline_mode", False)`, i.e. `false`). -/
theorem c1_folder_external_http_offline_mode_unset :
    analyze_source "C:/webapp" "folder" (FS.dir [c1IndexHtml, c1AppJs]) =
        .ok defaultRecommendations ∧
      defaultRecommendations.offline_mode = none ∧
      offlineModeGet defaultRecommendations = false :=
  ⟨rfl, rfl, rfl⟩

/-- C2 counterexample: on an existing folder whose enumeration fails
(`os.listdir` raises `PermissionError`), `analyze_source` propagates
the exception instead of returning a `Recommendation` — there is no
try/except around the folder branch. -/
theorem c2_counterexample_denied_enumeration_raises :
    analyze_source "/opt/protected_site" "folder" FS.denied =
      .error "PermissionError" := rfl

/-- C2 (amended): `analyze_source` returns without raising when the
folder path does not exist (hardcoded defaults) and when enumeration
succeeds, but a folder-enumeration I/O error on an existing folder
propagates to the caller as an uncaught exception. -/
theorem c2_amended_raises_exactly_on_denied_enumeration :
    (∀ p : String,
        analyze_source p "folder" FS.absent = .ok defaultRecommendations) ∧
    (∀ (p : String) (entries : List DirEntry),
        ∃ r, analyze_source p "folder" (FS.dir entries) = .ok r) ∧
    (∀ p : String,
        analyze_source p "folder" FS.denied = .error "PermissionError") :=
  ⟨fun _ => rfl, fun _ entries => ⟨analyzeFolder entries, rfl⟩, fun _ => rfl⟩

/-- C3: for a nonexistent folder path the analyzer returns, without
raising, exactly the hardcoded defaults: `singleFile`(=`onefile`)=true,
`showConsole`(=`console`)=false, `debugMode`(=`debug`)=false,
`compress`(=`upx_compress`)=false, `stripDebugInfo`(=`strip_debug`)=true,
`optimizationProfile`(=`optimization_level`)=Balanced, and the
`offline_mode` key absent, which every reader
(`analysis.get("offline_mode", False)`) interprets as
`offlineMode=false`. -/
theorem c3_nonexistent_folder_returns_defaults (p : String) :
    analyze_source p "folder" FS.absent = .ok defaultRecommendations ∧
      defaultRecommendations =
        { onefile := true, console := false, debug := false,
          upx_compress := false, strip_debug := true,
          optimization_level := "balanced", offline_mode := none } ∧
      offlineModeGet defaultRecommendations = false :=
  ⟨rfl, rfl, rfl⟩

/-- C4: any existing folder with a top-level file named with a
dev-artifact extension (`.map`/`.ts`/`.scss`/`.less`) is analyzed to
`optimizationProfile=Production` and `stripDebugInfo=true`, whatever
the folder's total size (the dev-artifact check runs after, and
overrides, the size-based profile choice). -/
theorem c4_dev_artifact_forces_production (p : String)
    (entries : List DirEntry) (e : DirEntry) (he : e ∈ entries)
    (hf : e.isFile = true) (hdev : isDevArtifact e.name = true) :
    ∃ r, analyze_source p "folder" (FS.dir entries) = .ok r ∧
      r.optimization_level = "production" ∧ r.strip_debug = true := by
  have hmem : e ∈ entries.filter (fun e => isDevArtifact e.name) :=
    List.mem_filter.mpr ⟨he, hdev⟩
  have hne : (entries.filter (fun e => isDevArtifact e.name)).isEmpty = false := by
    cases hfl : entries.filter (fun e => isDevArtifact e.name) with
    | nil => rw [hfl] at hmem; cases hmem
    | cons a as => rfl
  exact ⟨analyzeFolder entries, rfl, analyzeFolder_dev_fields entries hne⟩

/-- C5 (amended): any existing folder whose top-level regular files
sum to more than 50 MiB and which has no top-level *entry* — file or
not — named with a dev-artifact extension is analyzed to
`singleFile=false` and `optimizationProfile=Size`.  The broadening
from "no dev-artifact files" to "no dev-artifact-named entries" is
forced: the dev check at line 566 filters raw `os.listdir` names with
no `isfile` test, so a dev-named subdirectory also flips the profile
to Production (see the counterexample below). -/
theorem c5_large_folder_directory_mode (p : String)
    (entries : List DirEntry)
    (hsize : ((entries.filter (fun e => e.isFile)).map (fun e => e.size)).sum
        > 50 * 1024 * 1024)
    (hdev : ∀ e ∈ entries, isDevArtifact e.name = false) :
    ∃ r, analyze_source p "folder" (FS.dir entries) = .ok r ∧
      r.onefile = false ∧ r.optimization_level = "size" := by
  have hnil : entries.filter (fun e => isDevArtifact e.name) = [] := by
    rw [List.filter_eq_nil_iff]
    intro e he
    rw [hdev e he]
    exact Bool.false_ne_true
  exact ⟨analyzeFolder entries, rfl, analyzeFolder_large_fields entries hsize hnil⟩

/-- C6: every URL source, whatever the location string and whatever
the filesystem looks like (the URL branch performs no I/O at all),
yields `singleFile=true`, `offlineMode=true`,
`optimizationProfile=Portable`. -/
theorem c6_url_always_portable (p : String) (fs : FS) :
    analyze_source p "url" fs = .ok urlRecommendations ∧
      urlRecommendations.onefile = true ∧
      urlRecommendations.offline_mode = some true ∧
      offlineModeGet urlRecommendations = true ∧
      urlRecommendations.optimization_level = "portable" :=
  ⟨rfl, rfl, rfl, rfl, rfl⟩

/-- Concrete dev artifact: a 2 KiB source map at top level. -/
def c4MapFile : DirEntry := ⟨"bundle.js.map", true, 2048, ""⟩

/-- C4 witness: the folder `["bundle.js.map"]` (total size 2 KiB) is
analyzed to the Production profile with debug stripping. -/
theorem c4_dev_artifact_forces_production_witness :
    ∃ r, analyze_source "site" "folder" (FS.dir [c4MapFile]) = .ok r ∧
      r.optimization_level = "production" ∧ r.strip_debug = true :=
  c4_dev_artifact_forces_production "site" [c4MapFile] c4MapFile
    (by decide) (by decide) (by decide)

/-- Concrete large payload: a single 60 MiB top-level file. -/
def c5BigFile : DirEntry := ⟨"video.bin", true, 60 * 1024 * 1024, ""⟩

/-- C5 witness: the folder `["video.bin"]` (60 MiB, no dev artifacts)
is analyzed to directory mode with the Size profile. -/
theorem c5_large_folder_directory_mode_witness :
    ∃ r, analyze_source "site" "folder" (FS.dir [c5BigFile]) = .ok r ∧
      r.onefile = false ∧ r.optimization_level = "size" :=
  c5_large_folder_directory_mode "site" [c5BigFile] (by decide) (by decide)

/-- A top-level subdirectory (not a regular file) whose name carries a
dev-artifact extension. -/
def c5TsDir : DirEntry := ⟨"x.ts", false, 0, ""⟩

/-- C5 counterexample to the claim as frozen: the folder
`["video.bin" (60 MiB regular file), "x.ts" (subdirectory)]` satisfies
the claim's condition — top-level regular files sum to more than
50 MiB and no dev-artifact *file* is present — yet the analyzer
returns `optimizationProfile=Production`, not `Size`: the dev check
filters raw `os.listdir` names without an `isfile` test, so the
dev-named subdirectory overrides the size-based profile. -/
theorem c5_counterexample_dev_named_subdirectory :
    ((([c5BigFile, c5TsDir].filter (fun e => e.isFile)).map
          (fun e => e.size)).sum > 50 * 1024 * 1024) ∧
      (∀ e ∈ [c5BigFile, c5TsDir],
        e.isFile = true → isDevArtifact e.name = false) ∧
      (∃ r, analyze_source "site" "folder" (FS.dir [c5BigFile, c5TsDir])
            = .ok r ∧
        r.onefile = false ∧ r.optimization_level = "production" ∧
        r.optimization_level ≠ "size") :=
  ⟨by decide, by decide,
    ⟨analyzeFolder [c5BigFile, c5TsDir], rfl, rfl, rfl, by decide⟩⟩

/-! ### Claims C7-C10 (OptionPlanner / BuildEngine) -/

/-- C7: for every configuration whose analysis ran (no I/O exception),
the final command holds the directives in exactly the claimed relative
order — name, distribution path, work path, packaging mode, windowed
(iff the console flag is false), compression (only if `compress`),
strip (only if `stripDebugInfo`), data inclusion (only for folder
sources), the fixed hidden-import block, the icon directive (only if
an icon path is set and resolvable) — with the entry-point path as the
last element.  (In the source `--strip` is appended before the
compression directive, but the analysis never recommends compression,
so that segment is empty and the claimed order holds as an equality.) -/
theorem c7_directive_order (config : AppConfig) (fs : FS) (plat : Platform)
    (py script : String) (a : Recommendations)
    (h : analyze_source config.build.source_path config.build.source_type fs
        = .ok a) :
    build_pyinstaller_command config fs plat py script = .ok (
      [py, "-m", "PyInstaller", "--noconfirm", "--clean",
       "--name=" ++ config.metadata.name,
       "--distpath=" ++ ospath_join plat config.build.output_dir "dist",
       "--workpath=" ++
         ospath_join plat (ospath_join plat config.build.output_dir "build") "work"]
      ++ (if a.onefile then ["--onefile"] else ["--onedir"])
      ++ (if config.build.console then [] else ["--windowed"])
      ++ (if a.upx_compress then ["--upx-dir=upx"] else [])
      ++ (if a.strip_debug then ["--strip"] else [])
      ++ (if config.build.source_type = "folder"
          then [addDataDirective plat config] else [])
      ++ hiddenImports.map (fun imp => "--hidden-import=" ++ imp)
      ++ (if config.build.icon_path ≠ "" && plat.iconPathExists
          then ["--icon=" ++ config.build.icon_path] else [])
      ++ [script]) := by
  have hupx := analyze_source_ok_upx_compress _ _ _ _ h
  unfold build_pyinstaller_command get_optimal_pyinstaller_options
  rw [h]
  simp [plannedOptions, hupx, Except.map, List.append_assoc]

/-- Concrete configuration used to instantiate the planner claims. -/
def sampleConfig : AppConfig := ⟨⟨"MyApp"⟩, ⟨"folder", "site", "out", false, ""⟩⟩

/-- A POSIX execution platform with no icon file present. -/
def posixPlat : Platform := ⟨false, false⟩

/-- C7 witness: the claimed order instantiated on a small folder build
on POSIX. -/
theorem c7_directive_order_witness :
    build_pyinstaller_command sampleConfig (FS.dir []) posixPlat
        "python" "main.py" =
      .ok ["python", "-m", "PyInstaller", "--noconfirm", "--clean",
           "--name=MyApp", "--distpath=out/dist", "--workpath=out/build/work",
           "--onefile", "--windowed", "--strip",
           "--add-data=out/build/html_assets:html_assets",
           "--hidden-import=flask", "--hidden-import=webview",
           "--hidden-import=threading", "--hidden-import=json",
           "--hidden-import=os", "--hidden-import=sys",
           "--hidden-import=time", "--hidden-import=urllib.parse",
           "--hidden-import=base64", "--hidden-import=hashlib",
           "--hidden-import=datetime", "--hidden-import=tempfile",
           "main.py"] := by
  have := c7_directive_order sampleConfig (FS.dir []) posixPlat
    "python" "main.py" defaultRecommendations rfl
  simpa using this

/-! ### Directive classifiers: which planned option is which -/

theorem filter_ite_distrib (p : String → Bool) (c : Prop) [Decidable c]
    (l1 l2 : List String) :
    (if c then l1 else l2).filter p = if c then l1.filter p else l2.filter p :=
  apply_ite (List.filter p) c l1 l2

theorem ite_singleton (c : Prop) [Decidable c] (x y : String) :
    (if c then [x] else [y]) = [if c then x else y] :=
  (apply_ite (fun z => [z]) c x y).symm

theorem isAddDataDirective_append_false (pre x : String)
    (h : charsHasPre ("--add-data=".data.take pre.data.length) pre.data
        = false) :
    isAddDataDirective (pre ++ x) = false := by
  unfold isAddDataDirective
  rw [String.data_append]
  exact charsHasPre_append_eq_false _ _ _ h

theorem isAddDataDirective_name (x : String) :
    isAddDataDirective ("--name=" ++ x) = false :=
  isAddDataDirective_append_false _ _ (by decide)

theorem isAddDataDirective_distpath (x : String) :
    isAddDataDirective ("--distpath=" ++ x) = false :=
  isAddDataDirective_append_false _ _ (by decide)

theorem isAddDataDirective_workpath (x : String) :
    isAddDataDirective ("--workpath=" ++ x) = false :=
  isAddDataDirective_append_false _ _ (by decide)

theorem isAddDataDirective_hidden (x : String) :
    isAddDataDirective ("--hidden-import=" ++ x) = false :=
  isAddDataDirective_append_false _ _ (by decide)

theorem isAddDataDirective_icon (x : String) :
    isAddDataDirective ("--icon=" ++ x) = false :=
  isAddDataDirective_append_false _ _ (by decide)

theorem isAddDataDirective_addData (plat : Platform) (config : AppConfig) :
    isAddDataDirective (addDataDirective plat config) = true := by
  simp only [addDataDirective, isAddDataDirective]
  split <;>
    (rw [String.data_append, String.data_append, List.append_assoc]
     exact charsHasPre_self_append _ _)

/-- The `--add-data` directive is the only add-data-shaped string the
planner ever emits, and it is present exactly for folder sources. -/
theorem filter_addData_planned (config : AppConfig) (plat : Platform)
    (a : Recommendations) :
    (plannedOptions config plat a).filter isAddDataDirective =
      if config.build.source_type = "folder"
      then [addDataDirective plat config] else [] := by
  simp [plannedOptions, hiddenImports, List.filter_append, filter_ite_distrib,
    isAddDataDirective_name, isAddDataDirective_distpath,
    isAddDataDirective_workpath, isAddDataDirective_hidden,
    isAddDataDirective_icon, isAddDataDirective_addData,
    show isAddDataDirective "--noconfirm" = false from by decide,
    show isAddDataDirective "--clean" = false from by decide,
    show isAddDataDirective "--onefile" = false from by decide,
    show isAddDataDirective "--onedir" = false from by decide,
    show isAddDataDirective "--windowed" = false from by decide,
    show isAddDataDirective "--strip" = false from by decide,
    show isAddDataDirective "--upx-dir=upx" = false from by decide]
  refine ⟨by decide, by decide, by decide, by decide, by decide, by decide,
    by decide, by decide, by decide, by decide, by decide, by decide,
    fun s _ _ hs => ?_⟩
  rw [hs]
  exact isAddDataDirective_icon _

/-- The folder directive spelled with the separator factored out, as
the claim states it. -/
theorem addDataDirective_shape (plat : Platform) (config : AppConfig) :
    addDataDirective plat config =
      "--add-data=" ++
        ospath_join plat (ospath_join plat config.build.output_dir "build")
          "html_assets" ++
        (if plat.isWin32 then ";" else ":") ++ "html_assets" := by
  cases hw : plat.isWin32 <;>
    simp only [addDataDirective, hw, if_true, if_false, Bool.false_eq_true] <;>
    (apply String.ext
     simp only [String.data_append, List.append_assoc]
     rfl)

/-- C8: the planner emits an add-data-shaped directive if and only if
the source kind is folder, and the directive uses the execution
platform's separator between source and destination: `;` on win32,
`:` otherwise. -/
theorem c8_add_data_iff_folder (config : AppConfig) (fs : FS)
    (plat : Platform) (opts : List String)
    (h : get_optimal_pyinstaller_options config fs plat = .ok opts) :
    opts.filter isAddDataDirective =
      if config.build.source_type = "folder"
      then ["--add-data=" ++
              ospath_join plat (ospath_join plat config.build.output_dir "build")
                "html_assets" ++
              (if plat.isWin32 then ";" else ":") ++ "html_assets"]
      else [] := by
  obtain ⟨a, ha, rfl⟩ := (get_optimal_ok_iff _ _ _ _).mp h
  rw [filter_addData_planned, ← addDataDirective_shape]

/-- The planner output for `sampleConfig` on POSIX with a small
existing source folder. -/
def sampleOptions : List String :=
  ["--noconfirm", "--clean", "--name=MyApp", "--distpath=out/dist",
   "--workpath=out/build/work", "--onefile", "--windowed", "--strip",
   "--add-data=out/build/html_assets:html_assets"] ++
    hiddenImports.map (fun imp => "--hidden-import=" ++ imp)

/-- C8 witness: on the sample folder build the single add-data
directive carries the POSIX `:` separator. -/
theorem c8_add_data_iff_folder_witness :
    sampleOptions.filter isAddDataDirective =
      ["--add-data=out/build/html_assets:html_assets"] := by
  have := c8_add_data_iff_folder sampleConfig (FS.dir []) posixPlat
    sampleOptions rfl
  simpa using this

theorem isModeDirective_append_false (pre x : String)
    (h1 : charsHasPre pre.data "--onefile".data = false)
    (h2 : charsHasPre pre.data "--onedir".data = false) :
    isModeDirective (pre ++ x) = false := by
  unfold isModeDirective
  rw [decide_eq_false (strAppend_ne_of_not_pre pre x _ h1),
    decide_eq_false (strAppend_ne_of_not_pre pre x _ h2)]
  rfl

theorem isModeDirective_name (x : String) :
    isModeDirective ("--name=" ++ x) = false :=
  isModeDirective_append_false _ _ (by decide) (by decide)

theorem isModeDirective_distpath (x : String) :
    isModeDirective ("--distpath=" ++ x) = false :=
  isModeDirective_append_false _ _ (by decide) (by decide)

theorem isModeDirective_workpath (x : String) :
    isModeDirective ("--workpath=" ++ x) = false :=
  isModeDirective_append_false _ _ (by decide) (by decide)

theorem isModeDirective_hidden (x : String) :
    isModeDirective ("--hidden-import=" ++ x) = false :=
  isModeDirective_append_false _ _ (by decide) (by decide)

theorem isModeDirective_icon (x : String) :
    isModeDirective ("--icon=" ++ x) = false :=
  isModeDirective_append_false _ _ (by decide) (by decide)

theorem isModeDirective_addData (plat : Platform) (config : AppConfig) :
    isModeDirective (addDataDirective plat config) = false := by
  simp only [addDataDirective]
  split <;>
    (rw [String.append_assoc]
     exact isModeDirective_append_false "--add-data=" _ (by decide) (by decide))

/-- Of all planned options, exactly the one packaging-mode directive
selected by the analysis survives the mode filter. -/
theorem filter_mode_planned (config : AppConfig) (plat : Platform)
    (a : Recommendations) :
    (plannedOptions config plat a).filter isModeDirective =
      [if a.onefile then "--onefile" else "--onedir"] := by
  cases ho : a.onefile <;>
  simp [plannedOptions, hiddenImports, ho, List.filter_append,
    filter_ite_distrib,
    ite_singleton, isModeDirective_name, isModeDirective_distpath,
    isModeDirective_workpath, isModeDirective_hidden, isModeDirective_icon,
    isModeDirective_addData,
    show isModeDirective "--noconfirm" = false from by decide,
    show isModeDirective "--clean" = false from by decide,
    show isModeDirective "--onefile" = true from by decide,
    show isModeDirective "--onedir" = true from by decide,
    show isModeDirective "--windowed" = false from by decide,
    show isModeDirective "--strip" = false from by decide,
    show isModeDirective "--upx-dir=upx" = false from by decide,
    show isModeDirective "--hidden-import=flask" = false from by decide,
    show isModeDirective "--hidden-import=webview" = false from by decide,
    show isModeDirective "--hidden-import=threading" = false from by decide,
    show isModeDirective "--hidden-import=json" = false from by decide,
    show isModeDirective "--hidden-import=os" = false from by decide,
    show isModeDirective "--hidden-import=sys" = false from by decide,
    show isModeDirective "--hidden-import=time" = false from by decide,
    show isModeDirective "--hidden-import=urllib.parse" = false from by decide,
    show isModeDirective "--hidden-import=base64" = false from by decide,
    show isModeDirective "--hidden-import=hashlib" = false from by decide,
    show isModeDirective "--hidden-import=datetime" = false from by decide,
    show isModeDirective "--hidden-import=tempfile" = false from by decide]

/-- C9: every successfully planned option list contains exactly one
packaging-mode directive — one of `--onefile` / `--onedir`, never both
and never neither. -/
theorem c9_exactly_one_mode_directive (config : AppConfig) (fs : FS)
    (plat : Platform) (opts : List String)
    (h : get_optimal_pyinstaller_options config fs plat = .ok opts) :
    (opts.filter isModeDirective).length = 1 ∧
      (opts.filter isModeDirective = ["--onefile"] ∨
        opts.filter isModeDirective = ["--onedir"]) := by
  obtain ⟨a, ha, rfl⟩ := (get_optimal_ok_iff _ _ _ _).mp h
  rw [filter_mode_planned]
  cases a.onefile <;> simp

/-- C9 witness: the sample folder build carries exactly the
`--onefile` directive. -/
theorem c9_exactly_one_mode_directive_witness :
    (sampleOptions.filter isModeDirective).length = 1 ∧
      (sampleOptions.filter isModeDirective = ["--onefile"] ∨
        sampleOptions.filter isModeDirective = ["--onedir"]) :=
  c9_exactly_one_mode_directive sampleConfig (FS.dir []) posixPlat
    sampleOptions rfl

/-- Directive classifier: is the compression directive. -/
def isUpxDirective (s : String) : Bool :=
  decide (s = "--upx-dir=upx")

theorem isUpxDirective_append_false (pre x : String)
    (h : charsHasPre pre.data "--upx-dir=upx".data = false) :
    isUpxDirective (pre ++ x) = false := by
  unfold isUpxDirective
  rw [decide_eq_false (strAppend_ne_of_not_pre pre x _ h)]

theorem isUpxDirective_name (x : String) :
    isUpxDirective ("--name=" ++ x) = false :=
  isUpxDirective_append_false _ _ (by decide)

theorem isUpxDirective_distpath (x : String) :
    isUpxDirective ("--distpath=" ++ x) = false :=
  isUpxDirective_append_false _ _ (by decide)

theorem isUpxDirective_workpath (x : String) :
    isUpxDirective ("--workpath=" ++ x) = false :=
  isUpxDirective_append_false _ _ (by decide)

theorem isUpxDirective_hidden (x : String) :
    isUpxDirective ("--hidden-import=" ++ x) = false :=
  isUpxDirective_append_false _ _ (by decide)

theorem isUpxDirective_icon (x : String) :
    isUpxDirective ("--icon=" ++ x) = false :=
  isUpxDirective_append_false _ _ (by decide)

theorem isUpxDirective_addData (plat : Platform) (config : AppConfig) :
    isUpxDirective (addDataDirective plat config) = false := by
  simp only [addDataDirective]
  split <;>
    (rw [String.append_assoc]
     exact isUpxDirective_append_false "--add-data=" _ (by decide))

/-- When the analysis does not recommend compression (it never does),
the compression directive survives no filter of the planned options. -/
theorem filter_upx_planned (config : AppConfig) (plat : Platform)
    (a : Recommendations) (hupx : a.upx_compress = false) :
    (plannedOptions config plat a).filter isUpxDirective = [] := by
  simp [plannedOptions, hiddenImports, hupx, List.filter_append,
    filter_ite_distrib, isUpxDirective_name, isUpxDirective_distpath,
    isUpxDirective_workpath, isUpxDirective_hidden, isUpxDirective_icon,
    isUpxDirective_addData,
    show isUpxDirective "--noconfirm" = false from by decide,
    show isUpxDirective "--clean" = false from by decide,
    show isUpxDirective "--onefile" = false from by decide,
    show isUpxDirective "--onedir" = false from by decide,
    show isUpxDirective "--windowed" = false from by decide,
    show isUpxDirective "--strip" = false from by decide,
    show isUpxDirective "--hidden-import=flask" = false from by decide,
    show isUpxDirective "--hidden-import=webview" = false from by decide,
    show isUpxDirective "--hidden-import=threading" = false from by decide,
    show isUpxDirective "--hidden-import=json" = false from by decide,
    show isUpxDirective "--hidden-import=os" = false from by decide,
    show isUpxDirective "--hidden-import=sys" = false from by decide,
    show isUpxDirective "--hidden-import=time" = false from by decide,
    show isUpxDirective "--hidden-import=urllib.parse" = false from by decide,
    show isUpxDirective "--hidden-import=base64" = false from by decide,
    show isUpxDirective "--hidden-import=hashlib" = false from by decide,
    show isUpxDirective "--hidden-import=datetime" = false from by decide,
    show isUpxDirective "--hidden-import=tempfile" = false from by decide]

/-- C10: no analysis branch recommends compression — every returned
dict has `upx_compress=false` — and consequently the compression
directive (`--upx-dir=upx`) never appears in any planned option
list. -/
theorem c10_compression_never_recommended_nor_emitted :
    (∀ (p st : String) (fs : FS) (a : Recommendations),
        analyze_source p st fs = .ok a → a.upx_compress = false) ∧
    (∀ (config : AppConfig) (fs : FS) (plat : Platform) (opts : List String),
        get_optimal_pyinstaller_options config fs plat = .ok opts →
          "--upx-dir=upx" ∉ opts) := by
  refine ⟨analyze_source_ok_upx_compress, ?_⟩
  intro config fs plat opts h hmem
  obtain ⟨a, ha, rfl⟩ := (get_optimal_ok_iff _ _ _ _).mp h
  have hin : "--upx-dir=upx" ∈
      (plannedOptions config plat a).filter isUpxDirective :=
    List.mem_filter.mpr ⟨hmem, by decide⟩
  rw [filter_upx_planned config plat a
    (analyze_source_ok_upx_compress _ _ _ _ ha)] at hin
  cases hin

/-- C10 witness: the sample analysis carries `upx_compress=false` and
the sample option list carries no compression directive. -/
theorem c10_compression_never_witness :
    defaultRecommendations.upx_compress = false ∧
      "--upx-dir=upx" ∉ sampleOptions :=
  ⟨c10_compression_never_recommended_nor_emitted.1 "site" "folder"
      (FS.dir []) defaultRecommendations rfl,
    c10_compression_never_recommended_nor_emitted.2 sampleConfig
      (FS.dir []) posixPlat sampleOptions rfl⟩

end Html2Win
